import Mathlib

/-!
Verification development for the Build Diagnostic Engine of the
kernel_build_action repository (source: the TypeScript module holding
`ERROR_PATTERNS`, `analyzeErrorBlock` and `analyzeErrors`).

The engine is embedded shallowly: JavaScript strings become Lean `String`s,
the regular expressions actually occurring in the source are modelled by
executable scanners over `List Char`, and the filesystem side effects
(reading the log, writing the zero-byte `have_error` marker) are made
explicit in the result type.
-/

set_option maxRecDepth 4000

/-- Lower-case a string character-by-character, modelling the effect of the
JavaScript `/i` regex flag on the ASCII patterns appearing in the source
(`Char.toLower` lowers exactly the ASCII letters). -/
def lowerChars (s : String) : List Char :=
  s.toList.map Char.toLower

/-- The JavaScript whitespace class: the characters matched by `\s` and
stripped by `String.prototype.trim` (ASCII whitespace, NBSP, and the
Unicode space separators, line separators and BOM). -/
def isSpaceJS (c : Char) : Bool :=
  let n := c.toNat
  n == 0x20 || n == 0x9 || n == 0xa || n == 0xb || n == 0xc || n == 0xd ||
  n == 0xa0 || n == 0x1680 || (0x2000 ≤ n && n ≤ 0x200a) ||
  n == 0x2028 || n == 0x2029 || n == 0x202f || n == 0x205f ||
  n == 0x3000 || n == 0xfeff

/-- Does `p` occur at the very start of `l`? (the anchored step of a
substring search). -/
def prefixB : List Char → List Char → Bool
  | [], _ => true
  | _ :: _, [] => false
  | a :: as, b :: bs => a == b && prefixB as bs

/-- Does `f` accept some suffix of `l`? This models the unanchored search a
JavaScript `RegExp.test` performs: the pattern is tried at every position. -/
def anyPos (f : List Char → Bool) : List Char → Bool
  | [] => f []
  | c :: t => f (c :: t) || anyPos f t

/-- Does `p` occur contiguously anywhere inside `l`? Models
`String.prototype.includes` and a literal regex with no metacharacters. -/
def infixB (p : List Char) (l : List Char) : Bool :=
  anyPos (fun r => prefixB p r) l

/-- Does `l` contain a whitespace character immediately followed by `p`?
Models the `\s<literal>` alternatives of the trigger regex. -/
def hasWsThen (p : List Char) (l : List Char) : Bool :=
  anyPos (fun r =>
    match r with
    | c :: rest => isSpaceJS c && prefixB p rest
    | [] => false) l

/-- After at least one digit has been consumed: skip further digits and then
require the two characters of the closing bracket pair, returning what
follows them. Models the tail of `make\[\d+\]:`. -/
def closeTail : List Char → Option (List Char)
  | ']' :: ':' :: r => some r
  | c :: r => if c.isDigit then closeTail r else none
  | [] => none

/-- If the anchored pattern `make\[\d+\]:` matches at the head of `l`,
return the characters following the match; otherwise `none`. -/
def makeBrktAt (l : List Char) : Option (List Char) :=
  if prefixB ("make[".toList) l then
    match l.drop 5 with
    | c :: r => if c.isDigit then closeTail r else none
    | [] => none
  else none

/-- Does `/make\[\d+\]:/` match anywhere in `l`? -/
def hasMakeSub (l : List Char) : Bool :=
  anyPos (fun r => (makeBrktAt r).isSome) l

/-- Does the anchored pattern `error \d` match at the head of `l`
(the lower-cased form of `Error \d+` — one digit suffices for `\d+`)? -/
def errNumAt (l : List Char) : Bool :=
  prefixB ("error ".toList) l &&
    (match l.drop 6 with
     | c :: _ => c.isDigit
     | [] => false)

/-- Does `Error \d+` (lower-cased) match anywhere in `l`? -/
def errNumB (l : List Char) : Bool :=
  anyPos errNumAt l

/-- Does `make\[\d+\]:.*Error \d+` (lower-cased) match within the single
line `l`? The dot cannot cross a newline, so the whole match lives in one
line: an occurrence of `make[<digits>]:` followed later in `l` by
`error <digit>`. -/
def makeErrLineB (l : List Char) : Bool :=
  anyPos (fun r =>
    match makeBrktAt r with
    | some rest => errNumB rest
    | none => false) l

/-- Does `a.*b` match within the single line `l`: an occurrence of `a`
followed, at or after its end, by an occurrence of `b`? -/
def seqB (a b : List Char) (l : List Char) : Bool :=
  anyPos (fun r => prefixB a r && infixB b (r.drop a.length)) l

/-- Split a character sequence at newline characters, accumulating the
current line in reverse. Models `String.prototype.split('\n')`, which
yields one more piece than there are separators. -/
def splitLinesAux : List Char → List Char → List String
  | [], acc => [String.mk acc.reverse]
  | '\n' :: rest, acc => String.mk acc.reverse :: splitLinesAux rest []
  | c :: rest, acc => splitLinesAux rest (c :: acc)

/-- The list of lines of `content`, as produced by `content.split('\n')` in
the source. -/
def splitLines (content : String) : List String :=
  splitLinesAux content.toList []

/-- Join lines with newlines, modelling `lines.join('\n')`. -/
def joinNl : List String → String
  | [] => ""
  | [l] => l
  | l :: rest => l ++ "\n" ++ joinNl rest

/-- Is the JavaScript-trimmed form of `line` non-empty, i.e. does the line
hold at least one non-whitespace character? Models the truthiness test of
`trimmedLine` in the segmenter. -/
def trimNonEmptyB (line : String) : Bool :=
  line.toList.any (fun c => !(isSpaceJS c))

/-- The shape of one regular expression of the signature table. Every
pattern in the source is either a literal (possibly containing regex
escapes that denote literal characters), a `a.*b` sequence confined to one
line, or the `make\[\d+\]:.*Error \d+` pattern; all carry the `/i` flag. -/
inductive Pat where
  | lit : String → Pat
  | seqSameLine : String → String → Pat
  | makeNumErr : Pat

/-- The unanchored, case-insensitive `RegExp.test` of a signature pattern
against the (possibly multi-line) incident text. A `.` never crosses a
newline, so the two multi-part shapes are searched line by line. -/
def Pat.test (p : Pat) (text : String) : Bool :=
  match p with
  | .lit s => infixB (lowerChars s) (lowerChars text)
  | .seqSameLine a b =>
      (splitLines text).any (fun ln => seqB (lowerChars a) (lowerChars b) (lowerChars ln))
  | .makeNumErr =>
      (splitLines text).any (fun ln => makeErrLineB (lowerChars ln))

/-- One entry of the signature table: `{pattern, type, suggestion}` in the
source's `ErrorPattern` interface. -/
structure ErrorPattern where
  pattern : Pat
  type : String
  suggestion : String

/-- The signature table `ERROR_PATTERNS` of the source, in declaration
order, with every pattern, category label and remediation text carried
over verbatim (apostrophes and braces written as character escapes). -/
def ERROR_PATTERNS : List ErrorPattern := [
  ⟨.lit "No such file or directory", "Missing Header or Source File",
    "Check if the file path is correct, or if required development libraries are missing (e.g., libssl-dev, zlib1g-dev)."⟩,
  ⟨.lit "undefined reference to", "Link Error: Missing Library or Function",
    "Check if required libraries are missing (e.g., -lssl, -lcrypto), if library paths are in LDFLAGS/LDLIBS, or if function names are misspelled."⟩,
  ⟨.lit "unrecognized command line option", "Compiler Option Not Supported",
    "Your compiler version may be too old or too new. Check the options passed to the compiler in the Makefile for compatibility with your compiler version. Consider upgrading or downgrading the toolchain."⟩,
  ⟨.lit "misleading-indentation", "Code Indentation Does Not Match Logic",
    "This is a code style/logic potential error. Add braces \x27\x7b\x7d\x27 after \x27if\x27, \x27for\x27, \x27while\x27 statements to clarify code block scope. Or disable this warning (not recommended)."⟩,
  ⟨.lit "type specifier missing", "C Language Type Declaration Missing",
    "Variable or function declarations may be missing types (e.g., int). For kernel modules, it could be missing headers or ordering issues, or API changes between kernel versions."⟩,
  ⟨.makeNumErr, "Makefile Build Error",
    "This is a Makefile rule execution failure. Check the specific error messages above, usually a subcommand (e.g., \x27gcc\x27, \x27ld\x27, \x27sh\x27) returned a non-zero status code."⟩,
  ⟨.lit "target emulation unknown", "Linker Emulation Mode Error",
    "Your linker (ld) does not recognize the specific emulation mode. Check if LLVM and GNU toolchains are mixed, or ensure LD variable correctly points to LLVM\x27s lld."⟩,
  ⟨.seqSameLine "cannot open" ".gz", "File Missing (Configuration May Not Be Generated)",
    "Check if \x27make defconfig\x27 or your device-specific config has been run. If \x27make mrproper\x27 was executed previously, reconfiguration is needed."⟩,
  ⟨.lit "makes pointer from integer without a cast", "Type Conversion Error (Pointer and Integer)",
    "This is a severe type mismatch. Usually the function return type does not match the expected type (e.g., returning int but expecting pointer). May need to modify source code or use a more compatible compiler."⟩,
  ⟨.lit "MODULE_IMPORT_NS(VFS_internal_I_am_really_a_filesystem_and_am_NOT_a_driver)", "Clang Version Anomaly",
    "This is a compiler and KernelSU compatibility issue, usually occurs with KernelSU official version and SukiSU-Ultra. For official version, you can choose the old v0.9.5 version; for SukiSU-Ultra, it is generally recommended to switch to a different KernelSU branch."⟩,
  ⟨.lit "not found (required by clang)", "Clang Version Anomaly",
    "The current build system version is too old. If using 20.04, please use 22.04, otherwise use latest."⟩,
  ⟨.lit "multiple definition of \x27yylloc\x27", "Kernel Defect",
    "Modify YYLTYPE yylloc to extern YYLTYPE yylloc in scripts/dtc/dtc-lexer.lex.c_shipped"⟩,
  ⟨.lit "assembler command failed with exit code 1", "Clang Compiler Error",
    "Switch to a different Clang compiler version"⟩,
  ⟨.lit "incompatible pointer types passing \x27atomic_long_t *\x27", "Source Code Pointer Type Error",
    "Usually occurs after manual patching of cred.h, replace atomic_inc_not_zero with atomic_long_inc_not_zero in the code"⟩,
  ⟨.lit "-Werror", "Warning Treated as Error",
    "The compiler is treating warnings as errors due to -Werror flag. Either fix the underlying warning, or temporarily remove -Werror from CFLAGS/KBUILD_CFLAGS in the Makefile to allow compilation with warnings."⟩,
  ⟨.lit "implicit declaration of function", "Implicit Function Declaration",
    "A function is being used without being declared first. Include the proper header file, or add a function declaration/prototype before use. This may also indicate an API change in newer kernel versions."⟩,
  ⟨.seqSameLine "array subscript" "is outside array bounds", "Array Index Out of Bounds",
    "Accessing an array element outside its declared size. Check array bounds and ensure indices are within valid range [0, size-1]. This could be a buffer overflow risk."⟩,
  ⟨.lit "division by zero", "Division by Zero",
    "Code attempts to divide by zero. Add proper checks to ensure the divisor is not zero before performing division operations."⟩,
  ⟨.lit "null pointer dereference", "Null Pointer Dereference",
    "Attempting to access memory through a null pointer. Add null checks before dereferencing pointers, or ensure proper initialization before use."⟩,
  ⟨.lit "incompatible implicit declaration", "Incompatible Implicit Declaration",
    "Function was implicitly declared with a signature that does not match its actual definition. Include the correct header or add a proper function prototype."⟩,
  ⟨.lit "unused variable", "Unused Variable",
    "A variable is declared but never used. Either use the variable, remove it, or mark it with __maybe_unused attribute to suppress the warning."⟩,
  ⟨.lit "uninitialized variable", "Uninitialized Variable",
    "A variable is being used before being initialized. Initialize the variable at declaration or before first use."⟩,
  ⟨.lit "dereferencing pointer to incomplete type", "Dereferencing Incomplete Type",
    "Attempting to access members of a struct/union that has not been fully defined. Include the header file containing the complete type definition."⟩,
  ⟨.lit "conflicting types", "Conflicting Types",
    "A function or variable has been declared with different types in different places. Ensure all declarations match the definition exactly."⟩,
  ⟨.lit "redefinition of ", "Symbol Redefinition",
    "A function, variable, or macro has been defined multiple times. Check for duplicate definitions or include guards in header files."⟩,
  ⟨.lit "deprecated", "Deprecated API Usage",
    "Using a deprecated function or feature. Update the code to use the recommended replacement API or suppress with -Wno-deprecated-declarations (not recommended for long-term)."⟩,
  ⟨.lit "overflow in conversion", "Integer Overflow in Conversion",
    "A value is being converted to a type that cannot hold it. Check value ranges and use appropriate data types or add bounds checking."⟩,
  ⟨.lit "shift count overflow", "Bit Shift Overflow",
    "The shift amount exceeds the bit width of the type. Ensure shift counts are less than the types bit width (e.g., < 32 for int32)."⟩,
  ⟨.lit "cast from pointer to integer of different size", "Pointer to Integer Size Mismatch",
    "Converting a pointer to an integer type with different size. Use uintptr_t or intptr_t types which are guaranteed to hold pointer values."⟩,
  ⟨.lit "variable length array", "Variable Length Array (VLA) Used",
    "Using VLA which may cause stack overflow. Consider using dynamic allocation (kmalloc/vmalloc for kernel) instead, or ensure size is bounded."⟩,
  ⟨.lit "taking address of temporary", "Address of Temporary Value",
    "Attempting to take the address of a temporary/rvalue. Store the value in a variable first, then take its address."⟩,
  ⟨.lit "control reaches end of non-void function", "Missing Return Statement",
    "A non-void function may reach the end without returning a value. Add a return statement at the end of all code paths."⟩,
  ⟨.lit "comparison of integer expressions of different signedness", "Signed/Unsigned Comparison",
    "Comparing signed and unsigned integers. Cast one operand to match the others type, or ensure consistent types throughout."⟩,
  ⟨.lit "result of operation is still indeterminate", "Sequence Point Violation",
    "Undefined behavior due to multiple modifications between sequence points. Break the expression into multiple statements."⟩,
  ⟨.lit "stack-protector", "Stack Protection Enabled But Failed",
    "Stack smashing detected or stack protector instrumentation failed. Check for buffer overflows in the code, or disable with -fno-stack-protector (not recommended)."⟩,
  ⟨.lit "clock skew detected", "Clock Skew Detected",
    "File timestamps are in the future. Synchronize system clock or touch the affected files to update timestamps."⟩]

/-- The default category returned when no signature matches. -/
def defaultType : String := "Uncommon Error"

/-- The default remediation string returned when no signature matches. -/
def defaultSuggestion : String :=
  "Please follow the compilation output error results and try to resolve using search engines"

/-- The first-match-wins loop of `analyzeErrorBlock`, generalised over the
table it scans: return the type and prefixed suggestion of the first entry
whose pattern matches the text, or the defaults when none does. The source
walks `ERROR_PATTERNS` with a `break` on the first hit. -/
def classifyText (tbl : List ErrorPattern) (text : String) : String × String :=
  match tbl with
  | [] => (defaultType, defaultSuggestion)
  | p :: rest =>
      if p.pattern.test text then (p.type, "Suggestion: " ++ p.suggestion)
      else classifyText rest text

/-- `analyzeErrorBlock` of the source: join the block's lines with newlines
and classify against `ERROR_PATTERNS`. -/
def analyzeErrorBlock (lines : List String) : String × String :=
  classifyText ERROR_PATTERNS (joinNl lines)

/-- The trigger test of the segmenter:
`/\serror:|\sfatal error:|undefined reference to/i.test(line)`. -/
def isTriggerLine (line : String) : Bool :=
  hasWsThen ("error:".toList) (lowerChars line) ||
  hasWsThen ("fatal error:".toList) (lowerChars line) ||
  infixB ("undefined reference to".toList) (lowerChars line)

/-- The continuation test of the segmenter (evaluated only while an error
block is open): `line.includes('note:')` (case-sensitive), or
`/make\[\d+\]:/.test(line) && line.includes('***')` (case-sensitive), or
the trimmed line is non-empty. -/
def isContinuationLine (line : String) : Bool :=
  infixB ("note:".toList) line.toList ||
  (hasMakeSub line.toList && infixB ("***".toList) line.toList) ||
  trimNonEmptyB line

/-- One recorded error block: its raw lines together with the
classification attached when the block was pushed. -/
structure Block where
  lines : List String
  type : String
  suggestion : String

/-- Close a block over table `tbl`: classify its lines and record them,
as the source does at each `errorBlocks.push` site. -/
def mkBlockT (tbl : List ErrorPattern) (cur : List String) : Block :=
  ⟨cur, (classifyText tbl (joinNl cur)).1, (classifyText tbl (joinNl cur)).2⟩

/-- The mutable scan state of `analyzeErrors`: the running `errorCount`,
the recorded `errorBlocks`, the accumulating `currentErrorLines` and the
`processingError` flag. -/
structure ScanAcc where
  errorCount : Nat
  blocks : List Block
  cur : List String
  processing : Bool

/-- One iteration of the per-line loop of `analyzeErrors`, generalised over
the signature table. Branches, in the source's order: trigger (flush any
open non-empty block, count, reopen with this line), continuation (append),
otherwise flush and go idle. -/
def scanLineT (tbl : List ErrorPattern) (a : ScanAcc) (line : String) : ScanAcc :=
  if isTriggerLine line then
    { errorCount := a.errorCount + 1
      blocks := if a.processing && !a.cur.isEmpty then a.blocks ++ [mkBlockT tbl a.cur] else a.blocks
      cur := [line]
      processing := true }
  else if a.processing && isContinuationLine line then
    { a with cur := a.cur ++ [line] }
  else
    { errorCount := a.errorCount
      blocks := if a.processing && !a.cur.isEmpty then a.blocks ++ [mkBlockT tbl a.cur] else a.blocks
      cur := []
      processing := false }

/-- The scan state the loop starts from. -/
def initAcc : ScanAcc := ⟨0, [], [], false⟩

/-- Run the whole segmentation loop of `analyzeErrors` over the lines of
the log, including the final force-close of a trailing open block, and
return the error count together with the recorded blocks. -/
def runLinesT (tbl : List ErrorPattern) (ls : List String) : Nat × List Block :=
  let a := ls.foldl (scanLineT tbl) initAcc
  (a.errorCount,
   if a.processing && !a.cur.isEmpty then a.blocks ++ [mkBlockT tbl a.cur] else a.blocks)

/-- The segmentation loop specialised to the source's signature table. -/
def runLines (ls : List String) : Nat × List Block :=
  runLinesT ERROR_PATTERNS ls

/-- The externally observable outcome of one engine invocation: the
returned count, the recorded blocks (in report order), how many times the
zero-byte `have_error` marker file was written, and whether the
missing-log-file error message was emitted. -/
structure EngineResult where
  count : Nat
  blocks : List Block
  markerWrites : Nat
  logNotFound : Bool

/-- `analyzeErrors` on an existing log file with content `content`,
generalised over the signature table: split into lines, run the scan, and
write the marker exactly once when the count is positive (the single
`fs.writeFileSync('have_error', '')` call sits inside `if errorCount > 0`). -/
def analyzeErrorsContentT (tbl : List ErrorPattern) (content : String) : EngineResult :=
  let r := runLinesT tbl (splitLines content)
  { count := r.1
    blocks := r.2
    markerWrites := if r.1 > 0 then 1 else 0
    logNotFound := false }

/-- `analyzeErrors` on an existing log file, with the source's table. -/
def analyzeErrorsContent (content : String) : EngineResult :=
  analyzeErrorsContentT ERROR_PATTERNS content

/-- The full engine. The `fs.existsSync` guard is modelled by the option:
`none` is a path that resolves to no file, `some content` an existing log
file holding `content`. On a missing file the source logs the error and
returns 0 before touching anything else. -/
def analyzeErrors (file : Option String) : EngineResult :=
  match file with
  | none => { count := 0, blocks := [], markerWrites := 0, logNotFound := true }
  | some content => analyzeErrorsContent content

/-- The number of trigger lines in a list of log lines. -/
def countTriggers (ls : List String) : Nat :=
  ls.countP isTriggerLine

/-- Modelled from the words of the redundancy claim: the per-line loop of a
segmenter whose only continuation rule is that any line with non-empty trim
continues an open incident; everything else is as in `scanLineT`. -/
def scanLineAltT (tbl : List ErrorPattern) (a : ScanAcc) (line : String) : ScanAcc :=
  if isTriggerLine line then
    { errorCount := a.errorCount + 1
      blocks := if a.processing && !a.cur.isEmpty then a.blocks ++ [mkBlockT tbl a.cur] else a.blocks
      cur := [line]
      processing := true }
  else if a.processing && trimNonEmptyB line then
    { a with cur := a.cur ++ [line] }
  else
    { errorCount := a.errorCount
      blocks := if a.processing && !a.cur.isEmpty then a.blocks ++ [mkBlockT tbl a.cur] else a.blocks
      cur := []
      processing := false }

/-- The trim-only segmenter run over the whole log. -/
def runLinesAltT (tbl : List ErrorPattern) (ls : List String) : Nat × List Block :=
  let a := ls.foldl (scanLineAltT tbl) initAcc
  (a.errorCount,
   if a.processing && !a.cur.isEmpty then a.blocks ++ [mkBlockT tbl a.cur] else a.blocks)

/-- Modelled from the words of the trigger claim: a line matches one of the
three literal shapes with a leading space character, case-insensitively. -/
def triggerShapeLiteral (line : String) : Bool :=
  infixB (" error:".toList) (lowerChars line) ||
  infixB (" fatal error:".toList) (lowerChars line) ||
  infixB ("undefined reference to".toList) (lowerChars line)

/-- Declarative reading of the trigger regex: the lower-cased line contains
a JavaScript whitespace character immediately followed by the literal
characters of one of the two error markers, or contains the undefined
reference marker. -/
def TriggerShape (line : String) : Prop :=
  (∃ c u v, isSpaceJS c = true ∧ lowerChars line = u ++ c :: "error:".toList ++ v) ∨
  (∃ c u v, isSpaceJS c = true ∧ lowerChars line = u ++ c :: "fatal error:".toList ++ v) ∨
  (∃ u v, lowerChars line = u ++ "undefined reference to".toList ++ v)



/-- Characterisation of the anchored matcher: `p` is a prefix of `l` iff
`l` extends `p`. -/
theorem prefixB_iff : ∀ (p l : List Char), prefixB p l = true ↔ ∃ t, l = p ++ t
  | [], l => by simp [prefixB]
  | a :: as, [] => by simp [prefixB]
  | a :: as, b :: bs => by
      simp only [prefixB, Bool.and_eq_true, beq_iff_eq, prefixB_iff as bs,
        List.cons_append, List.cons.injEq]
      constructor
      · rintro ⟨rfl, t, rfl⟩
        exact ⟨t, rfl, rfl⟩
      · rintro ⟨t, rfl, rfl⟩
        exact ⟨rfl, t, rfl⟩

/-- Characterisation of the position scanner: some split of `l` has its
right part accepted by `f`. -/
theorem anyPos_iff (f : List Char → Bool) :
    ∀ l : List Char, anyPos f l = true ↔ ∃ u v, l = u ++ v ∧ f v = true
  | [] => by
      simp only [anyPos]
      constructor
      · intro h
        exact ⟨[], [], rfl, h⟩
      · rintro ⟨u, v, huv, hv⟩
        obtain ⟨rfl, rfl⟩ := List.append_eq_nil.mp huv.symm
        exact hv
  | c :: t => by
      simp only [anyPos, Bool.or_eq_true, anyPos_iff f t]
      constructor
      · rintro (h | ⟨u, v, rfl, hv⟩)
        · exact ⟨[], c :: t, rfl, h⟩
        · exact ⟨c :: u, v, rfl, hv⟩
      · rintro ⟨u, v, huv, hv⟩
        cases u with
        | nil =>
            left
            have hveq : v = c :: t := by simpa using huv.symm
            rwa [hveq] at hv
        | cons x u =>
            right
            obtain ⟨rfl, rfl⟩ : c = x ∧ t = u ++ v := by
              simpa using huv
            exact ⟨u, v, rfl, hv⟩

/-- Characterisation of the substring search. -/
theorem infixB_iff (p l : List Char) : infixB p l = true ↔ ∃ u v, l = u ++ p ++ v := by
  simp only [infixB, anyPos_iff, prefixB_iff]
  constructor
  · rintro ⟨u, v, rfl, t, rfl⟩
    exact ⟨u, t, by simp⟩
  · rintro ⟨u, v, rfl⟩
    exact ⟨u, p ++ v, by simp, v, rfl⟩

/-- Characterisation of the whitespace-then-literal search. -/
theorem hasWsThen_iff (p l : List Char) :
    hasWsThen p l = true ↔ ∃ c u v, isSpaceJS c = true ∧ l = u ++ c :: p ++ v := by
  rw [hasWsThen, anyPos_iff]
  constructor
  · rintro ⟨u, v, rfl, hv⟩
    cases v with
    | nil => simp at hv
    | cons c rest =>
        simp only [Bool.and_eq_true] at hv
        obtain ⟨hc, hp⟩ := hv
        obtain ⟨t, rfl⟩ := (prefixB_iff p rest).mp hp
        exact ⟨c, u, t, hc, by simp⟩
  · rintro ⟨c, u, v, hc, rfl⟩
    refine ⟨u, c :: (p ++ v), by simp, ?_⟩
    simp only [hc, Bool.and_eq_true, true_and]
    exact (prefixB_iff p (p ++ v)).mpr ⟨v, rfl⟩

/-- A successful substring search for a non-empty needle puts the needle's
first character somewhere in the haystack. -/
theorem infixB_head_mem {c : Char} {cs l : List Char} (h : infixB (c :: cs) l = true) :
    c ∈ l := by
  obtain ⟨u, v, rfl⟩ := (infixB_iff (c :: cs) l).mp h
  simp

/-- A successful `make[<n>]:` search puts the character `m` somewhere in
the haystack. -/
theorem hasMakeSub_mem {l : List Char} (h : hasMakeSub l = true) : 'm' ∈ l := by
  obtain ⟨u, v, rfl, hv⟩ := (anyPos_iff _ l).mp h
  have hpre : prefixB ("make[".toList) v = true := by
    by_contra hnot
    rw [makeBrktAt] at hv
    simp [Bool.not_eq_true] at hnot
    simp [hnot] at hv
  obtain ⟨t, rfl⟩ := (prefixB_iff _ v).mp hpre
  simp

/-- Lines containing a non-whitespace character have a non-empty trim. -/
theorem trimNonEmptyB_of_mem {line : String} {c : Char}
    (hmem : c ∈ line.toList) (hc : isSpaceJS c = false) : trimNonEmptyB line = true := by
  unfold trimNonEmptyB
  exact List.any_eq_true.mpr ⟨c, hmem, by simp [hc]⟩

/-- The two special continuation clauses are subsumed by the non-empty-trim
clause: a line passes the continuation test exactly when its trimmed form
is non-empty. -/
theorem isContinuationLine_eq_trim (line : String) :
    isContinuationLine line = trimNonEmptyB line := by
  unfold isContinuationLine
  cases h1 : infixB ("note:".toList) line.toList with
  | true =>
      have : trimNonEmptyB line = true :=
        trimNonEmptyB_of_mem (infixB_head_mem h1) (by decide)
      simp [this]
  | false =>
      cases h2 : hasMakeSub line.toList with
      | true =>
          have : trimNonEmptyB line = true :=
            trimNonEmptyB_of_mem (hasMakeSub_mem h2) (by decide)
          simp [this]
      | false => simp

/-- The per-line loop with the implemented continuation test is the same
function as the loop with the trim-only continuation test. -/
theorem scanLineT_eq_alt (tbl : List ErrorPattern) :
    scanLineT tbl = scanLineAltT tbl := by
  funext a line
  unfold scanLineT scanLineAltT
  rw [isContinuationLine_eq_trim]

/-- When no entry of a table matches the text, the classifier loop falls
through to the defaults. -/
theorem classifyText_default : ∀ (tbl : List ErrorPattern) (text : String),
    (∀ p ∈ tbl, p.pattern.test text = false) →
    classifyText tbl text = (defaultType, defaultSuggestion)
  | [], _, _ => rfl
  | p :: rest, text, h => by
      have hp : p.pattern.test text = false := h p (by simp)
      rw [classifyText, if_neg (by simp [hp])]
      exact classifyText_default rest text (fun q hq => h q (by simp [hq]))

/-- First match wins: if nothing before `p` matches and `p` matches, the
classifier returns `p`'s category and suggestion, whatever follows `p`. -/
theorem classifyText_first : ∀ (pre : List ErrorPattern) (p : ErrorPattern)
    (rest : List ErrorPattern) (text : String),
    (∀ q ∈ pre, q.pattern.test text = false) → p.pattern.test text = true →
    classifyText (pre ++ p :: rest) text = (p.type, "Suggestion: " ++ p.suggestion)
  | [], p, rest, text, _, hp => by
      simp [classifyText, hp]
  | q :: pre, p, rest, text, hpre, hp => by
      have hq : q.pattern.test text = false := hpre q (by simp)
      rw [List.cons_append, classifyText, if_neg (by simp [hq])]
      exact classifyText_first pre p rest text (fun r hr => hpre r (by simp [hr])) hp

/-- The per-line step only inspects the open-block part of the state: the
running count adds to, and the recorded blocks append to, whatever was
accumulated before. -/
theorem scanLineT_frame (tbl : List ErrorPattern) (line : String) (cur : List String)
    (p : Bool) (n : Nat) (bs : List Block) :
    scanLineT tbl ⟨n, bs, cur, p⟩ line =
      ⟨n + (scanLineT tbl ⟨0, [], cur, p⟩ line).errorCount,
       bs ++ (scanLineT tbl ⟨0, [], cur, p⟩ line).blocks,
       (scanLineT tbl ⟨0, [], cur, p⟩ line).cur,
       (scanLineT tbl ⟨0, [], cur, p⟩ line).processing⟩ := by
  unfold scanLineT
  by_cases h1 : isTriggerLine line = true
  · simp only [h1, if_true]
    by_cases h2 : (p && !cur.isEmpty) = true <;> simp [h2]
  · simp only [h1]
    by_cases h2 : (p && isContinuationLine line) = true
    · simp [h2]
    · simp only [Bool.not_eq_true] at h1
      simp only [h1, Bool.false_eq_true, if_false, h2]
      by_cases h3 : (p && !cur.isEmpty) = true <;> simp [h2, h3]

/-- The whole scan only inspects the open-block part of the initial state.  -/
theorem foldl_frame (tbl : List ErrorPattern) : ∀ (ls : List String) (n : Nat)
    (bs : List Block) (cur : List String) (p : Bool),
    ls.foldl (scanLineT tbl) ⟨n, bs, cur, p⟩ =
      ⟨n + (ls.foldl (scanLineT tbl) ⟨0, [], cur, p⟩).errorCount,
       bs ++ (ls.foldl (scanLineT tbl) ⟨0, [], cur, p⟩).blocks,
       (ls.foldl (scanLineT tbl) ⟨0, [], cur, p⟩).cur,
       (ls.foldl (scanLineT tbl) ⟨0, [], cur, p⟩).processing⟩
  | [], n, bs, cur, p => by simp
  | line :: rest, n, bs, cur, p => by
      simp only [List.foldl_cons]
      rw [scanLineT_frame]
      rw [foldl_frame tbl rest]
      rw [foldl_frame tbl rest (scanLineT tbl ⟨0, [], cur, p⟩ line).errorCount
        (scanLineT tbl ⟨0, [], cur, p⟩ line).blocks]
      simp [Nat.add_assoc, List.append_assoc]

/-- The scan invariant: an open block is never empty, the running count
leads the recorded blocks by exactly the open block, and the count grows by
one per trigger line scanned. -/
theorem scan_invariant (tbl : List ErrorPattern) : ∀ (ls : List String) (a : ScanAcc),
    (a.processing = true → a.cur ≠ []) →
    a.errorCount = a.blocks.length + (if a.processing = true then 1 else 0) →
    ((ls.foldl (scanLineT tbl) a).processing = true → (ls.foldl (scanLineT tbl) a).cur ≠ []) ∧
    (ls.foldl (scanLineT tbl) a).errorCount =
      (ls.foldl (scanLineT tbl) a).blocks.length +
        (if (ls.foldl (scanLineT tbl) a).processing = true then 1 else 0) ∧
    (ls.foldl (scanLineT tbl) a).errorCount = a.errorCount + countTriggers ls
  | [], a, h1, h2 => by
      refine ⟨h1, h2, ?_⟩
      simp [countTriggers]
  | line :: rest, a, h1, h2 => by
      have hflush : (a.processing && !a.cur.isEmpty) = a.processing := by
        cases hp : a.processing with
        | false => simp
        | true =>
            have hne := h1 hp
            cases hcur : a.cur with
            | nil => exact absurd hcur hne
            | cons x xs => simp
      have hstep : ((scanLineT tbl a line).processing = true → (scanLineT tbl a line).cur ≠ []) ∧
          (scanLineT tbl a line).errorCount =
            (scanLineT tbl a line).blocks.length +
              (if (scanLineT tbl a line).processing = true then 1 else 0) ∧
          (scanLineT tbl a line).errorCount =
            a.errorCount + (if isTriggerLine line then 1 else 0) := by
        unfold scanLineT
        by_cases ht : isTriggerLine line = true
        · simp only [ht, if_true, hflush]
          refine ⟨by simp, ?_, by simp⟩
          cases hp : a.processing with
          | false => simpa [hp] using h2
          | true =>
              simp only [hp, if_true]
              simp [hp] at h2
              simp [List.length_append, h2]
        · simp only [ht]
          by_cases hc : (a.processing && isContinuationLine line) = true
          · have hp : a.processing = true := by
              exact (Bool.and_eq_true _ _).mp hc |>.1
            simp only [Bool.not_eq_true] at ht
            simp only [ht, Bool.false_eq_true, if_false, hc, if_true]
            refine ⟨by simp, by simpa [hp] using h2, by simp [ht, hp, h2]⟩
          · simp only [Bool.not_eq_true] at ht
            simp only [ht, Bool.false_eq_true, if_false, hc, hflush]
            refine ⟨by simp, ?_, by simp⟩
            cases hp : a.processing with
            | false => simpa [hp] using h2
            | true =>
                simp only [hp]
                simp [hp] at h2
                simp [List.length_append, h2]
      have hrec := scan_invariant tbl rest (scanLineT tbl a line) hstep.1 hstep.2.1
      simp only [List.foldl_cons]
      refine ⟨hrec.1, hrec.2.1, ?_⟩
      rw [hrec.2.2, hstep.2.2]
      simp only [countTriggers, List.countP_cons]
      by_cases ht : isTriggerLine line = true
      · simp [ht, countTriggers]
        omega
      · simp [ht, countTriggers]

/-- The scan over a whole log records one block per trigger line and
returns the trigger count. -/
theorem runLinesT_counts (tbl : List ErrorPattern) (ls : List String) :
    (runLinesT tbl ls).1 = countTriggers ls ∧
    (runLinesT tbl ls).2.length = countTriggers ls := by
  have h := scan_invariant tbl ls initAcc (by simp [initAcc]) (by simp [initAcc])
  obtain ⟨h1, h2, h3⟩ := h
  have hcount : (ls.foldl (scanLineT tbl) initAcc).errorCount = countTriggers ls := by
    simpa [initAcc] using h3
  unfold runLinesT
  refine ⟨hcount, ?_⟩
  cases hp : (ls.foldl (scanLineT tbl) initAcc).processing with
  | true =>
      have hne := h1 hp
      cases hcur : (ls.foldl (scanLineT tbl) initAcc).cur with
      | nil => exact absurd hcur hne
      | cons x xs =>
          have hcond : ((ls.foldl (scanLineT tbl) initAcc).processing &&
              !(ls.foldl (scanLineT tbl) initAcc).cur.isEmpty) = true := by
            simp [hp, hcur]
          simp only [hcond, if_true]
          simp only [hp, if_true] at h2
          simp [List.length_append, ← hcount, h2]
  | false =>
      simp only [hp]
      simp only [hp, Bool.false_eq_true, if_false, Nat.add_zero] at h2
      simp [← hcount, h2]

/-- While a block is open, a run of non-trigger lines with non-empty trim
is absorbed into it one by one, and nothing else changes. -/
theorem foldl_cont (tbl : List ErrorPattern) : ∀ (ms : List String) (a : ScanAcc),
    a.processing = true →
    (∀ m ∈ ms, isTriggerLine m = false ∧ trimNonEmptyB m = true) →
    ms.foldl (scanLineT tbl) a = ⟨a.errorCount, a.blocks, a.cur ++ ms, true⟩
  | [], a, hp, _ => by
      cases a
      simp_all
  | m :: ms, a, hp, hms => by
      have hm := hms m (by simp)
      have hstep : scanLineT tbl a m = { a with cur := a.cur ++ [m] } := by
        unfold scanLineT
        rw [if_neg (by simp [hm.1]), if_pos]
        rw [isContinuationLine_eq_trim, hp, hm.2]
        simp
      simp only [List.foldl_cons, hstep]
      rw [foldl_cont tbl ms { a with cur := a.cur ++ [m] } (by simp [hp])
        (fun x hx => hms x (by simp [hx]))]
      simp

/-- C1: for every existing log file, the number of incidents recorded in
the report equals the number of trigger lines observed in the log — every
trigger line starts exactly one block that is eventually closed and
recorded, a trailing open block being force-closed at end-of-input — and
the engine's integer return value equals this same count. -/
theorem incident_count_eq_triggers (content : String) :
    (analyzeErrors (some content)).blocks.length = countTriggers (splitLines content) ∧
    (analyzeErrors (some content)).count = countTriggers (splitLines content) := by
  have h := runLinesT_counts ERROR_PATTERNS (splitLines content)
  simp only [analyzeErrors, analyzeErrorsContent, analyzeErrorsContentT]
  exact ⟨h.2, h.1⟩

/-- C2: on the four-line end-to-end scenario the engine produces exactly
two incidents — lines 1–2 classified as the link-error category and line 4
alone classified as the unsupported-option category — returns 2, and
writes the marker. -/
theorem end_to_end_scenario :
    (analyzeErrorsContent "foo.c: error: undefined reference to \x27bar\x27\nnote: declared here\n\nbaz.c: error: unrecognized command line option \x27-fxyz\x27").count = 2 ∧
    (analyzeErrorsContent "foo.c: error: undefined reference to \x27bar\x27\nnote: declared here\n\nbaz.c: error: unrecognized command line option \x27-fxyz\x27").blocks.map Block.lines =
      [["foo.c: error: undefined reference to \x27bar\x27", "note: declared here"],
       ["baz.c: error: unrecognized command line option \x27-fxyz\x27"]] ∧
    (analyzeErrorsContent "foo.c: error: undefined reference to \x27bar\x27\nnote: declared here\n\nbaz.c: error: unrecognized command line option \x27-fxyz\x27").blocks.map Block.type =
      ["Link Error: Missing Library or Function", "Compiler Option Not Supported"] ∧
    (analyzeErrorsContent "foo.c: error: undefined reference to \x27bar\x27\nnote: declared here\n\nbaz.c: error: unrecognized command line option \x27-fxyz\x27").markerWrites = 1 := by
  decide

/-- C3: the marker is written exactly when the incident count is at least
one, and then exactly once per invocation; a log with zero trigger lines
yields count 0 and no marker write. -/
theorem marker_written_iff_errors (content : String) :
    ((analyzeErrors (some content)).markerWrites = 1 ↔ 1 ≤ (analyzeErrors (some content)).count) ∧
    (analyzeErrors (some content)).markerWrites ≤ 1 ∧
    (countTriggers (splitLines content) = 0 →
      (analyzeErrors (some content)).count = 0 ∧
      (analyzeErrors (some content)).markerWrites = 0) := by
  have h := runLinesT_counts ERROR_PATTERNS (splitLines content)
  simp only [analyzeErrors, analyzeErrorsContent, analyzeErrorsContentT]
  refine ⟨?_, ?_, ?_⟩
  · by_cases hc : (runLinesT ERROR_PATTERNS (splitLines content)).1 > 0
    · simp [hc]
      omega
    · simp [hc]
      omega
  · by_cases hc : (runLinesT ERROR_PATTERNS (splitLines content)).1 > 0 <;> simp [hc]
  · intro h0
    have hz : (runLinesT ERROR_PATTERNS (splitLines content)).1 = 0 := by rw [h.1, h0]
    simp [hz]

/-- Witness for C3 at a log with zero trigger lines. -/
theorem marker_written_iff_errors_witness :
    (analyzeErrors (some "hello")).count = 0 ∧
    (analyzeErrors (some "hello")).markerWrites = 0 :=
  (marker_written_iff_errors "hello").2.2 (by decide)

/-- C4: the classifier walks the table in declaration order and returns the
category of the first matching signature, testing no further ones — the
entries after the first match (here `mid`, `q` and `post`) never influence
the result, so of two matching signatures the earlier-declared one wins. -/
theorem classifier_first_match_wins (pre mid post : List ErrorPattern)
    (p q : ErrorPattern) (text : String)
    (hpre : ∀ r ∈ pre, r.pattern.test text = false)
    (hp : p.pattern.test text = true) (hq : q.pattern.test text = true) :
    classifyText (pre ++ p :: (mid ++ q :: post)) text =
      (p.type, "Suggestion: " ++ p.suggestion) := by
  have hq' := hq
  exact classifyText_first pre p (mid ++ q :: post) text hpre hp

/-- Witness for C4 on a synthetic two-signature table with overlapping
patterns, both matching the text. -/
theorem classifier_first_match_wins_witness :
    classifyText [⟨.lit "aa", "T1", "s1"⟩, ⟨.lit "a", "T2", "s2"⟩] "aa" =
      ("T1", "Suggestion: s1") := by
  have h := classifier_first_match_wins [] [] [] ⟨.lit "aa", "T1", "s1"⟩
    ⟨.lit "a", "T2", "s2"⟩ "aa" (by intro r hr; simp at hr) (by decide) (by decide)
  simpa using h

/-- C5: an incident whose text no signature matches is classified with the
fixed default category and the generic search-engine remediation string. -/
theorem classifier_default_on_no_match (lines : List String)
    (h : ∀ p ∈ ERROR_PATTERNS, p.pattern.test (joinNl lines) = false) :
    analyzeErrorBlock lines = ("Uncommon Error",
      "Please follow the compilation output error results and try to resolve using search engines") := by
  unfold analyzeErrorBlock
  rw [classifyText_default ERROR_PATTERNS (joinNl lines) h]
  rfl

/-- Witness for C5 at a one-line incident matched by no signature. -/
theorem classifier_default_on_no_match_witness :
    analyzeErrorBlock ["hello"] = ("Uncommon Error",
      "Please follow the compilation output error results and try to resolve using search engines") :=
  classifier_default_on_no_match ["hello"] (by decide)

/-- C6: a trigger line followed by non-blank non-trigger lines and then a
blank line yields one incident holding the trigger line and all those
lines; a trigger line immediately followed by another trigger line closes
the first incident with only its own line and opens a second one starting
at the second trigger line. -/
theorem segmenter_greedy_and_split (tbl : List ErrorPattern) (t t₁ t₂ : String)
    (ms rest : List String)
    (ht : isTriggerLine t = true)
    (hms : ∀ m ∈ ms, isTriggerLine m = false ∧ trimNonEmptyB m = true)
    (ht₁ : isTriggerLine t₁ = true) (ht₂ : isTriggerLine t₂ = true) :
    runLinesT tbl (t :: (ms ++ "" :: rest)) =
      (1 + (runLinesT tbl rest).1, mkBlockT tbl (t :: ms) :: (runLinesT tbl rest).2) ∧
    runLinesT tbl (t₁ :: t₂ :: rest) =
      (1 + (runLinesT tbl (t₂ :: rest)).1,
        mkBlockT tbl [t₁] :: (runLinesT tbl (t₂ :: rest)).2) := by
  have hinit : ∀ s : String, isTriggerLine s = true →
      scanLineT tbl initAcc s = ⟨1, [], [s], true⟩ := by
    intro s hs
    unfold scanLineT initAcc
    simp [hs]
  constructor
  · have eA : (t :: (ms ++ "" :: rest)).foldl (scanLineT tbl) initAcc =
        rest.foldl (scanLineT tbl) ⟨1, [mkBlockT tbl (t :: ms)], [], false⟩ := by
      rw [List.foldl_cons, hinit t ht, List.foldl_append]
      rw [foldl_cont tbl ms ⟨1, [], [t], true⟩ rfl hms]
      rw [List.foldl_cons]
      have hstep : scanLineT tbl ⟨1, [], [t] ++ ms, true⟩ "" =
          ⟨1, [mkBlockT tbl (t :: ms)], [], false⟩ := by
        unfold scanLineT
        rw [if_neg (by decide), if_neg (by simp; decide)]
        simp
      rw [hstep]
    have eB : rest.foldl (scanLineT tbl) ⟨1, [mkBlockT tbl (t :: ms)], [], false⟩ =
        ⟨1 + (rest.foldl (scanLineT tbl) initAcc).errorCount,
         mkBlockT tbl (t :: ms) :: (rest.foldl (scanLineT tbl) initAcc).blocks,
         (rest.foldl (scanLineT tbl) initAcc).cur,
         (rest.foldl (scanLineT tbl) initAcc).processing⟩ := by
      have := foldl_frame tbl rest 1 [mkBlockT tbl (t :: ms)] [] false
      simpa [initAcc] using this
    unfold runLinesT
    rw [eA, eB]
    by_cases hcond : ((rest.foldl (scanLineT tbl) initAcc).processing &&
        !(rest.foldl (scanLineT tbl) initAcc).cur.isEmpty) = true <;>
      simp [hcond]
  · have hstep2 : scanLineT tbl ⟨1, [], [t₁], true⟩ t₂ =
        ⟨2, [mkBlockT tbl [t₁]], [t₂], true⟩ := by
      unfold scanLineT
      simp [ht₂]
    have eA : (t₁ :: t₂ :: rest).foldl (scanLineT tbl) initAcc =
        rest.foldl (scanLineT tbl) ⟨2, [mkBlockT tbl [t₁]], [t₂], true⟩ := by
      rw [List.foldl_cons, hinit t₁ ht₁, List.foldl_cons, hstep2]
    have eB : rest.foldl (scanLineT tbl) ⟨2, [mkBlockT tbl [t₁]], [t₂], true⟩ =
        ⟨2 + (rest.foldl (scanLineT tbl) ⟨0, [], [t₂], true⟩).errorCount,
         mkBlockT tbl [t₁] :: (rest.foldl (scanLineT tbl) ⟨0, [], [t₂], true⟩).blocks,
         (rest.foldl (scanLineT tbl) ⟨0, [], [t₂], true⟩).cur,
         (rest.foldl (scanLineT tbl) ⟨0, [], [t₂], true⟩).processing⟩ := by
      simpa using foldl_frame tbl rest 2 [mkBlockT tbl [t₁]] [t₂] true
    have eC : (t₂ :: rest).foldl (scanLineT tbl) initAcc =
        ⟨1 + (rest.foldl (scanLineT tbl) ⟨0, [], [t₂], true⟩).errorCount,
         (rest.foldl (scanLineT tbl) ⟨0, [], [t₂], true⟩).blocks,
         (rest.foldl (scanLineT tbl) ⟨0, [], [t₂], true⟩).cur,
         (rest.foldl (scanLineT tbl) ⟨0, [], [t₂], true⟩).processing⟩ := by
      rw [List.foldl_cons, hinit t₂ ht₂]
      simpa using foldl_frame tbl rest 1 [] [t₂] true
    unfold runLinesT
    rw [eA, eB, eC]
    by_cases hcond : ((rest.foldl (scanLineT tbl) ⟨0, [], [t₂], true⟩).processing &&
        !(rest.foldl (scanLineT tbl) ⟨0, [], [t₂], true⟩).cur.isEmpty) = true <;>
      simp [hcond] <;> omega

/-- Witness for C6 at concrete logs for both scenarios. -/
theorem segmenter_greedy_and_split_witness :
    runLinesT ERROR_PATTERNS ("a error: x" :: (["bbb", "ccc"] ++ "" :: [])) =
      (1 + (runLinesT ERROR_PATTERNS []).1,
        mkBlockT ERROR_PATTERNS ("a error: x" :: ["bbb", "ccc"]) ::
          (runLinesT ERROR_PATTERNS []).2) ∧
    runLinesT ERROR_PATTERNS ("a error: x" :: "b error: y" :: []) =
      (1 + (runLinesT ERROR_PATTERNS ("b error: y" :: [])).1,
        mkBlockT ERROR_PATTERNS ["a error: x"] ::
          (runLinesT ERROR_PATTERNS ("b error: y" :: [])).2) :=
  segmenter_greedy_and_split ERROR_PATTERNS "a error: x" "a error: x" "b error: y"
    ["bbb", "ccc"] [] (by decide) (by decide) (by decide) (by decide)

/-- C7: on a path resolving to no file the engine reports the missing-log
condition, returns count 0, records nothing and writes no marker; the
model is a total function, so no exception propagates. -/
theorem missing_log_file :
    analyzeErrors none =
      { count := 0, blocks := [], markerWrites := 0, logNotFound := true } :=
  rfl

/-- C8 counterexample: a tab is matched by the `\s` of the trigger regex,
so the tab-indented line is a trigger although it contains none of the
three literal space-led shapes the claim lists. -/
theorem trigger_literal_shapes_counterexample :
    isTriggerLine "\terror: x" = true ∧ triggerShapeLiteral "\terror: x" = false := by
  decide

/-- C8 amended: a line is a trigger exactly when, case-insensitively, it
contains a whitespace character immediately followed by one of the two
error markers, or contains the undefined-reference marker; and a
non-trigger line never opens a new incident — the scan either extends the
open block or flushes to idle, never seeding a fresh one-line block, and
never increments the count. -/
theorem trigger_iff_whitespace_shapes (line : String) :
    (isTriggerLine line = true ↔ TriggerShape line) ∧
    (∀ (tbl : List ErrorPattern) (a : ScanAcc), isTriggerLine line = false →
      (scanLineT tbl a line).errorCount = a.errorCount ∧
      ((scanLineT tbl a line).cur = a.cur ++ [line] ∧
         (scanLineT tbl a line).processing = a.processing ∨
       (scanLineT tbl a line).cur = [] ∧
         (scanLineT tbl a line).processing = false)) := by
  constructor
  · unfold isTriggerLine TriggerShape
    simp only [Bool.or_eq_true, hasWsThen_iff, infixB_iff]
    exact or_assoc
  · intro tbl a hf
    unfold scanLineT
    simp only [hf, Bool.false_eq_true, if_false]
    by_cases hc : (a.processing && isContinuationLine line) = true
    · simp [hc]
    · simp [hc]

/-- Witness for C8 at a concrete line and scan state. -/
theorem trigger_iff_whitespace_shapes_witness :
    (isTriggerLine "hello" = true ↔ TriggerShape "hello") ∧
    (scanLineT ERROR_PATTERNS initAcc "hello").errorCount = 0 := by
  have h := trigger_iff_whitespace_shapes "hello"
  refine ⟨h.1, ?_⟩
  have h2 := (h.2 ERROR_PATTERNS initAcc (by decide)).1
  simpa [initAcc] using h2

/-- C9: the engine is a pure function of the log content and the signature
table — two invocations on equal content produce equal reports, counts and
marker behaviour. -/
theorem engine_deterministic (tbl : List ErrorPattern) (c₁ c₂ : String)
    (h : c₁ = c₂) :
    analyzeErrorsContentT tbl c₁ = analyzeErrorsContentT tbl c₂ := by
  rw [h]

/-- Witness for C9 at a concrete log content. -/
theorem engine_deterministic_witness :
    analyzeErrorsContentT ERROR_PATTERNS "log" = analyzeErrorsContentT ERROR_PATTERNS "log" :=
  engine_deterministic ERROR_PATTERNS "log" "log" rfl

/-- C10: the two special continuation clauses are redundant — every line
they accept has a non-empty trim — so the trim-only segmenter produces
exactly the same incidents as the implemented one on every log. -/
theorem segmenter_trim_only_equiv :
    (∀ ls, runLinesAltT ERROR_PATTERNS ls = runLines ls) ∧
    (∀ line, isContinuationLine line = trimNonEmptyB line) := by
  constructor
  · intro ls
    unfold runLines runLinesAltT runLinesT
    rw [scanLineT_eq_alt]
  · exact isContinuationLine_eq_trim
